import Mathlib

/-!
Verification of `src/ImageBackingStore.cpp` (ZuluSCSI firmware).

The C++ class `ImageBackingStore` is embedded shallowly:
* machine integers are `Nat` with explicit reduction modulo `2^32`
  (`uint32_t`, `unsigned long` and `size_t` are 32-bit on the ARM targets);
* the collaborators (SD block device, SdFat `FsFile`, ROM driver,
  configuration reader) are out of scope of the repository and are modelled
  as a record `Env` of pure functions over an abstract file-handle type `F`;
* the `assert` in the ROM branches of `seek`/`read` is modelled by returning
  `none` (program abort); all other paths return `some` results;
* `strtoul(p, &end, 0)` and `strncasecmp(p, "RAW:", 4)` from libc are
  modelled on `List Char` (the characters of the NUL-terminated string,
  without the terminator; `*p == '\0'` at position `rest` is `rest = []`).
-/

/-- `SD_SECTOR_SIZE` from the headers: 512 bytes. -/
def SD_SECTOR_SIZE : Nat := 512

/-- `2^32`, the modulus of `uint32_t` arithmetic. -/
def U32 : Nat := 4294967296

/-- Truncation to `uint32_t`. -/
def u32 (x : Nat) : Nat := x % U32

/-- `uint32_t` subtraction `a - b` (wrapping). -/
def u32sub (a b : Nat) : Nat := (u32 a + U32 - u32 b) % U32

/-- `size_t → ssize_t` conversion (32-bit two's complement). -/
def toSsize (n : Nat) : Int := if u32 n < 2147483648 then (u32 n : Int) else (u32 n : Int) - (U32 : Int)

/-- C `isspace` in the default locale. -/
def isSpaceC (c : Char) : Bool :=
  c = ' ' || c = '\t' || c = '\n' || c = '\x0b' || c = '\x0c' || c = '\r'

/-- `tolower` for ASCII, as used by `strncasecmp`. -/
def lcChar (c : Char) : Char :=
  if 'A' ≤ c ∧ c ≤ 'Z' then Char.ofNat (c.toNat + 32) else c

/-- `strncasecmp(s, pat, pat.length) == 0` for a NUL-free pattern `pat`:
case-insensitive match of the first `pat.length` characters of `s`. -/
def matchCI : List Char → List Char → Bool
  | [], _ => true
  | _ :: _, [] => false
  | p :: ps, c :: cs => (lcChar c = lcChar p) && matchCI ps cs

/-- The `"RAW:"` descriptor tag. -/
def rawTag : List Char := ['R', 'A', 'W', ':']

/-- The `"ROM:"` descriptor tag. -/
def romTag : List Char := ['R', 'O', 'M', ':']

/-- Value of a character as a digit (0-9, a-z, A-Z), as in `strtoul`. -/
def digitVal (c : Char) : Option Nat :=
  if '0' ≤ c ∧ c ≤ '9' then some (c.toNat - '0'.toNat)
  else if 'a' ≤ c ∧ c ≤ 'z' then some (c.toNat - 'a'.toNat + 10)
  else if 'A' ≤ c ∧ c ≤ 'Z' then some (c.toNat - 'A'.toNat + 10)
  else none

/-- Digit value restricted to a base. -/
def digitValIn (base : Nat) (c : Char) : Option Nat :=
  match digitVal c with
  | some v => if v < base then some v else none
  | none => none

/-- Consume a maximal run of digits in `base`, accumulating the exact value. -/
def takeDigits (base : Nat) : List Char → Nat → Nat × List Char
  | [], acc => (acc, [])
  | c :: rest, acc =>
    match digitValIn base c with
    | some v => takeDigits base rest (acc * base + v)
    | none => (acc, c :: rest)

/-- Does the list start with a hexadecimal digit? -/
def hexStart (l : List Char) : Bool :=
  match l with
  | c :: _ => (digitValIn 16 c).isSome
  | [] => false

/-- `strtoul` overflow behaviour: values beyond `ULONG_MAX` yield `ULONG_MAX`. -/
def clampU32 (n : Nat) : Nat := if n < U32 then n else U32 - 1

/-- Base-0 subject-sequence scan of `strtoul`: returns (exact value, rest,
whether any conversion was performed). `0x`/`0X` followed by a hex digit is
hexadecimal, a leading `0` is octal, otherwise decimal. -/
def strtoulBody (l : List Char) : Nat × List Char × Bool :=
  match l with
  | '0' :: c :: rest =>
    if (c = 'x' ∨ c = 'X') ∧ hexStart rest then
      let p := takeDigits 16 rest 0
      (p.1, p.2, true)
    else
      let p := takeDigits 8 (c :: rest) 0
      (p.1, p.2, true)
  | '0' :: [] => (0, [], true)
  | c :: rest =>
    match digitValIn 10 c with
    | some v =>
      let p := takeDigits 10 rest v
      (p.1, p.2, true)
    | none => (0, c :: rest, false)
  | [] => (0, [], false)

/-- `strtoul(s, &endptr, 0)` on a NUL-terminated string modelled as
`List Char`: returns the converted `unsigned long` value and the suffix
`endptr` points to. If no conversion is performed the original pointer is
returned, as the C standard requires. -/
def strtoul (s : List Char) : Nat × List Char :=
  let s1 := s.dropWhile isSpaceC
  match s1 with
  | '-' :: r =>
    let b := strtoulBody r
    if b.2.2 then (u32 (U32 - clampU32 b.1), b.2.1) else (0, s)
  | '+' :: r =>
    let b := strtoulBody r
    if b.2.2 then (clampU32 b.1, b.2.1) else (0, s)
  | _ =>
    let b := strtoulBody s1
    if b.2.2 then (clampU32 b.1, b.2.1) else (0, s)

/-- The collaborators of `ImageBackingStore`, specified at their interface
boundary (block device, SdFat filesystem/file, ROM driver, config reader).
`F` is the abstract state of an `FsFile` handle. All functions are pure;
operations that mutate the file handle return the new handle. -/
structure Env (F : Type) where
  /-- `SD.card()->sectorCount()` (`uint32_t`). -/
  sectorCount : Nat
  /-- `readSectors(start, buf, n)` success. -/
  readSectors : Nat → Nat → Bool
  /-- `writeSectors(start, buf, n)` success. -/
  writeSectors : Nat → Nat → Bool
  /-- `romDriveCheckPresent(&hdr)`. -/
  romPresent : Bool
  /-- `hdr.imagesize` filled in by `romDriveCheckPresent` when present. -/
  romSize : Nat
  /-- `romDriveRead(buf, byteOffset, count)` success. -/
  romDriveRead : Nat → Nat → Bool
  /-- `FS_ATTRIB_READ_ONLY & SD.attrib(path)` as a boolean. -/
  attribReadOnly : List Char → Bool
  /-- `SD.open(path, readonly ? O_RDONLY : O_RDWR)`. -/
  fsOpen : List Char → Bool → F
  /-- A default-constructed `FsFile`. -/
  fsDefault : F
  /-- `FsFile::isOpen()`. -/
  fsIsOpen : F → Bool
  /-- `FsFile::size()`. -/
  fsSize : F → Nat
  /-- `FsFile::seek(pos)`. -/
  fsSeek : F → Nat → Bool × F
  /-- `FsFile::read(buf, count)` (signed byte count). -/
  fsRead : F → Nat → Int × F
  /-- `FsFile::write(buf, count)` (signed byte count). -/
  fsWrite : F → Nat → Int × F
  /-- `FsFile::flush()`. -/
  fsFlush : F → F
  /-- `FsFile::close()`. -/
  fsClose : F → Bool × F
  /-- `FsFile::curPosition()`. -/
  fsCurPosition : F → Nat
  /-- `FsFile::contiguousRange(&b, &e)`: `none` on failure. -/
  fsContiguousRange : F → Option (Nat × Nat)
  /-- `ini_getbool("SCSI", "UseFATAllocSize", 0, CONFIGFILE)`. -/
  useFATAllocSize : Bool

/-- The mutable state of one `ImageBackingStore` instance. `m_blockdev` is
`true` when the non-owning pointer is non-null; `m_romhdr_imagesize` is the
`imagesize` field of `m_romhdr`. -/
structure ImageBackingStore (F : Type) where
  m_israw : Bool
  m_isrom : Bool
  m_isreadonly_attr : Bool
  m_blockdev : Bool
  m_bgnsector : Nat
  m_endsector : Nat
  m_cursector : Nat
  m_romhdr_imagesize : Nat
  m_fsfile : F
deriving DecidableEq

namespace ImageBackingStore

/-- The default constructor `ImageBackingStore()`: clears the flags, the
device pointer and the sector fields; `m_fsfile` is a default-constructed
`FsFile`. (`m_romhdr` is left alone by the source; it is unobservable while
`m_isrom` is false, and modelled as 0.) -/
def mkDefault {F : Type} (env : Env F) : ImageBackingStore F :=
  { m_israw := false, m_isrom := false, m_isreadonly_attr := false,
    m_blockdev := false, m_bgnsector := 0, m_endsector := 0, m_cursector := 0,
    m_romhdr_imagesize := 0, m_fsfile := env.fsDefault }

/-- The `"RAW:"` branch of `ImageBackingStore(filename, scsi_block_size)`.
`m_bgnsector`/`m_endsector` receive the two `strtoul` results before the
syntax check, exactly as in the source. `endptr + 1` when `endptr` already
sits on the terminator is an out-of-bounds read in the source; its result is
discarded by the syntax check and is modelled as parsing the empty string. -/
def mkRaw {F : Type} (env : Env F) (filename : List Char) (scsi_block_size : Nat) :
    ImageBackingStore F :=
  let p1 := strtoul (List.drop 4 filename)
  let p2 := strtoul p1.2.tail
  let s := { mkDefault env with m_bgnsector := p1.1, m_endsector := p2.1 }
  if p1.2.head? = some ':' ∧ p2.2 = [] then
    if scsi_block_size % SD_SECTOR_SIZE = 0 then
      let s := { s with m_israw := true, m_blockdev := true }
      if u32 env.sectorCount ≤ s.m_endsector then
        { s with m_endsector := u32sub env.sectorCount 1 }
      else s
    else s
  else s

/-- The `"ROM:"` branch of the constructor. -/
def mkRom {F : Type} (env : Env F) : ImageBackingStore F :=
  if env.romPresent then
    { mkDefault env with m_isrom := true, m_romhdr_imagesize := u32 env.romSize }
  else
    { mkDefault env with m_romhdr_imagesize := 0 }

/-- The filesystem-path branch of the constructor, including the
raw-mapping promotion. -/
def mkFile {F : Type} (env : Env F) (filename : List Char) (scsi_block_size : Nat) :
    ImageBackingStore F :=
  let ro := env.attribReadOnly filename
  let f := env.fsOpen filename ro
  let s := { mkDefault env with m_isreadonly_attr := ro, m_fsfile := f }
  let sectorcount := u32 (env.fsSize f / SD_SECTOR_SIZE)
  match env.fsContiguousRange f with
  | some be =>
    let b := u32 be.1
    let e := u32 be.2
    if u32 (b + sectorcount) ≤ e ∧ scsi_block_size % SD_SECTOR_SIZE = 0 then
      let sc2 :=
        if e ≠ u32 (b + sectorcount) ∧ env.useFATAllocSize then
          u32 (u32sub e b + 1)
        else sectorcount
      { s with m_israw := true, m_blockdev := true, m_bgnsector := b,
               m_endsector := u32sub (b + sc2) 1, m_fsfile := env.fsFlush f }
    else s
  | none => s

/-- `ImageBackingStore(filename, scsi_block_size)`: classify the descriptor. -/
def ofDescriptor {F : Type} (env : Env F) (filename : List Char) (scsi_block_size : Nat) :
    ImageBackingStore F :=
  if matchCI rawTag filename then mkRaw env filename scsi_block_size
  else if matchCI romTag filename then mkRom env
  else mkFile env filename scsi_block_size

/-- `ImageBackingStore::isOpen()`. -/
def isOpen {F : Type} (env : Env F) (s : ImageBackingStore F) : Bool :=
  if s.m_israw then s.m_blockdev
  else if s.m_isrom then decide (0 < s.m_romhdr_imagesize)
  else env.fsIsOpen s.m_fsfile

/-- `ImageBackingStore::isWritable()`. -/
def isWritable {F : Type} (s : ImageBackingStore F) : Bool :=
  !s.m_isrom && !s.m_isreadonly_attr

/-- `ImageBackingStore::isRom()`. -/
def isRom {F : Type} (s : ImageBackingStore F) : Bool := s.m_isrom

/-- `ImageBackingStore::close()`: returns the success flag and the new state. -/
def close {F : Type} (env : Env F) (s : ImageBackingStore F) :
    Bool × ImageBackingStore F :=
  if s.m_israw then (true, { s with m_blockdev := false })
  else if s.m_isrom then (true, { s with m_romhdr_imagesize := 0 })
  else
    let r := env.fsClose s.m_fsfile
    (r.1, { s with m_fsfile := r.2 })

/-- `ImageBackingStore::size()` (`uint64_t`). -/
def size {F : Type} (env : Env F) (s : ImageBackingStore F) : Nat :=
  if s.m_israw ∧ s.m_blockdev then
    u32 (u32sub s.m_endsector s.m_bgnsector + 1) * SD_SECTOR_SIZE
  else if s.m_isrom then s.m_romhdr_imagesize
  else env.fsSize s.m_fsfile

/-- `ImageBackingStore::contiguousRange(&b, &e)`: `some (b, e)` on success. -/
def contiguousRange {F : Type} (env : Env F) (s : ImageBackingStore F) :
    Option (Nat × Nat) :=
  if s.m_israw ∧ s.m_blockdev then some (s.m_bgnsector, s.m_endsector)
  else if s.m_isrom then some (0, 0)
  else env.fsContiguousRange s.m_fsfile

/-- `ImageBackingStore::seek(pos)`: `none` models the failed `assert` in the
ROM branch (abort); otherwise `some (returned bool, new state)`. `sectornum`
is `pos / SD_SECTOR_SIZE` truncated to `uint32_t`. -/
def seek {F : Type} (env : Env F) (s : ImageBackingStore F) (pos : Nat) :
    Option (Bool × ImageBackingStore F) :=
  let sectornum := u32 (pos / SD_SECTOR_SIZE)
  let s1 := if s.m_israw = true ∧ sectornum * SD_SECTOR_SIZE ≠ pos then
              { s with m_israw := false } else s
  if s1.m_israw then
    let cur := u32 (s1.m_bgnsector + sectornum)
    some (decide (cur ≤ s1.m_endsector), { s1 with m_cursector := cur })
  else if s1.m_isrom then
    if sectornum * SD_SECTOR_SIZE = pos then
      some (decide (u32 (sectornum * SD_SECTOR_SIZE) < s1.m_romhdr_imagesize),
            { s1 with m_cursector := sectornum })
    else none
  else
    let r := env.fsSeek s1.m_fsfile pos
    some (r.1, { s1 with m_fsfile := r.2 })

/-- `ImageBackingStore::read(buf, count)`: `none` models the failed `assert`
in the ROM branch; otherwise `some (ssize_t result, new state)`. -/
def read {F : Type} (env : Env F) (s : ImageBackingStore F) (count : Nat) :
    Option (Int × ImageBackingStore F) :=
  let sectorcount := u32 (count / SD_SECTOR_SIZE)
  let s1 := if s.m_israw = true ∧ sectorcount * SD_SECTOR_SIZE ≠ count then
              { s with m_israw := false } else s
  if s1.m_israw ∧ s1.m_blockdev then
    if env.readSectors s1.m_cursector sectorcount then
      some (toSsize count, { s1 with m_cursector := u32 (s1.m_cursector + sectorcount) })
    else some (-1, s1)
  else if s1.m_isrom then
    if sectorcount * SD_SECTOR_SIZE = count then
      if env.romDriveRead (u32 (s1.m_cursector * SD_SECTOR_SIZE)) count then
        some (toSsize count, { s1 with m_cursector := u32 (s1.m_cursector + sectorcount) })
      else some (-1, s1)
    else none
  else
    let r := env.fsRead s1.m_fsfile count
    some (r.1, { s1 with m_fsfile := r.2 })

/-- `ImageBackingStore::write(buf, count)`: `(ssize_t result, new state)`.
There is no `assert` in `write`, so it never aborts. -/
def write {F : Type} (env : Env F) (s : ImageBackingStore F) (count : Nat) :
    Int × ImageBackingStore F :=
  let sectorcount := u32 (count / SD_SECTOR_SIZE)
  let s1 := if s.m_israw = true ∧ sectorcount * SD_SECTOR_SIZE ≠ count then
              { s with m_israw := false } else s
  if s1.m_israw ∧ s1.m_blockdev then
    if env.writeSectors s1.m_cursector sectorcount then
      (toSsize count, { s1 with m_cursector := u32 (s1.m_cursector + sectorcount) })
    else (0, s1)
  else if s1.m_isrom then (0, s1)
  else if s1.m_isreadonly_attr then (0, s1)
  else
    let r := env.fsWrite s1.m_fsfile count
    (r.1, { s1 with m_fsfile := r.2 })

/-- `ImageBackingStore::flush()`. -/
def flush {F : Type} (env : Env F) (s : ImageBackingStore F) : ImageBackingStore F :=
  if ¬s.m_israw ∧ ¬s.m_isrom ∧ ¬s.m_isreadonly_attr then
    { s with m_fsfile := env.fsFlush s.m_fsfile }
  else s

/-- `ImageBackingStore::position()`. -/
def position {F : Type} (env : Env F) (s : ImageBackingStore F) : Nat :=
  if ¬s.m_israw ∧ ¬s.m_isrom then env.fsCurPosition s.m_fsfile else 0

end ImageBackingStore

/-! ## Arithmetic helper lemmas -/

lemma u32_lt (x : Nat) : u32 x < U32 := Nat.mod_lt _ (by decide)

lemma u32_of_lt {x : Nat} (h : x < U32) : u32 x = x := Nat.mod_eq_of_lt h

lemma u32sub_eq {a b : Nat} (h : u32 b ≤ u32 a) : u32sub a b = u32 a - u32 b := by
  unfold u32sub u32 U32 at *
  omega

lemma unaligned_ne {pos : Nat} (h : ¬ SD_SECTOR_SIZE ∣ pos) :
    u32 (pos / SD_SECTOR_SIZE) * SD_SECTOR_SIZE ≠ pos := by
  intro he
  exact h ⟨u32 (pos / SD_SECTOR_SIZE), by simp only [SD_SECTOR_SIZE] at he ⊢; omega⟩

lemma aligned_eq {count : Nat} (h1 : count < U32) (h2 : SD_SECTOR_SIZE ∣ count) :
    u32 (count / SD_SECTOR_SIZE) * SD_SECTOR_SIZE = count := by
  rw [u32_of_lt (lt_of_le_of_lt (Nat.div_le_self _ _) h1)]
  exact Nat.div_mul_cancel h2

/-! ## Constructor shape lemmas -/

namespace ImageBackingStore

lemma ofDescriptor_raw {F : Type} (env : Env F) {filename : List Char} (bs : Nat)
    (h : matchCI rawTag filename = true) :
    ofDescriptor env filename bs = mkRaw env filename bs := by
  simp [ofDescriptor, h]

lemma ofDescriptor_rom {F : Type} (env : Env F) {filename : List Char} (bs : Nat)
    (h1 : matchCI rawTag filename = false) (h2 : matchCI romTag filename = true) :
    ofDescriptor env filename bs = mkRom env := by
  simp [ofDescriptor, h1, h2]

lemma ofDescriptor_file {F : Type} (env : Env F) {filename : List Char} (bs : Nat)
    (h1 : matchCI rawTag filename = false) (h2 : matchCI romTag filename = false) :
    ofDescriptor env filename bs = mkFile env filename bs := by
  simp [ofDescriptor, h1, h2]

lemma mkRaw_wellformed {F : Type} (env : Env F) {filename : List Char} {bs b e : Nat}
    {r1 : List Char}
    (hp1 : strtoul (List.drop 4 filename) = (b, r1))
    (hc : r1.head? = some ':')
    (hp2 : strtoul r1.tail = (e, []))
    (hbs : bs % SD_SECTOR_SIZE = 0) :
    mkRaw env filename bs =
      { m_israw := true, m_isrom := false, m_isreadonly_attr := false,
        m_blockdev := true, m_bgnsector := b,
        m_endsector := if u32 env.sectorCount ≤ e then u32sub env.sectorCount 1 else e,
        m_cursector := 0, m_romhdr_imagesize := 0, m_fsfile := env.fsDefault } := by
  simp only [mkRaw, hp1, hp2, mkDefault]
  simp only [hc, hbs]
  simp only [and_self, if_true, true_and, eq_self_iff_true, if_pos]
  split <;> rfl

lemma mkRaw_malformed {F : Type} (env : Env F) {filename : List Char} (bs : Nat) {b : Nat}
    {r1 : List Char}
    (hp1 : strtoul (List.drop 4 filename) = (b, r1))
    (hbad : ¬(r1.head? = some ':' ∧ (strtoul r1.tail).2 = [])) :
    mkRaw env filename bs =
      { mkDefault env with m_bgnsector := b, m_endsector := (strtoul r1.tail).1 } := by
  simp only [mkRaw, hp1]
  rw [if_neg hbad]

end ImageBackingStore

/-- A concrete instantiation of the collaborators over `F = Nat`, used by the
closed counterexamples and witnesses: file handle 0 is the default (closed)
handle, any other handle is open; `flush` bumps the handle, `close` returns
handle 0. -/
def demoEnv : Env Nat :=
  { sectorCount := 100, readSectors := fun _ _ => true, writeSectors := fun _ _ => true,
    romPresent := true, romSize := 2048, romDriveRead := fun _ _ => true,
    attribReadOnly := fun _ => false, fsOpen := fun _ _ => 1, fsDefault := 0,
    fsIsOpen := fun f => decide (f ≠ 0), fsSize := fun _ => 1024,
    fsSeek := fun f _ => (true, f), fsRead := fun f _ => (7, f),
    fsWrite := fun f n => ((n : Int), f),
    fsFlush := fun f => f + 1, fsClose := fun _ => (true, 0), fsCurPosition := fun _ => 0,
    fsContiguousRange := fun _ => some (10, 20), useFATAllocSize := false }

/-- C3: for every well-formed `RAW:b:e` descriptor (both fields parsed by
`strtoul`, colon separator, no trailing garbage) with `e` below the device
sector count and a block size that is a multiple of `SECTOR_SIZE`,
construction yields an open store whose `size()` is `(e-b+1)*SECTOR_SIZE`
and whose `contiguousRange()` succeeds with exactly `(b, e)`. -/
theorem C3_raw_descriptor_construction {F : Type} (env : Env F) (filename : List Char)
    (bs b e : Nat) (r1 : List Char)
    (hpre : matchCI rawTag filename = true)
    (hp1 : strtoul (List.drop 4 filename) = (b, r1))
    (hc : r1.head? = some ':')
    (hp2 : strtoul r1.tail = (e, []))
    (hbs : bs % SD_SECTOR_SIZE = 0)
    (hbe : b ≤ e)
    (he : e < u32 env.sectorCount) :
    (ImageBackingStore.ofDescriptor env filename bs).isOpen env = true ∧
    (ImageBackingStore.ofDescriptor env filename bs).size env = (e - b + 1) * SD_SECTOR_SIZE ∧
    (ImageBackingStore.ofDescriptor env filename bs).contiguousRange env = some (b, e) := by
  rw [ImageBackingStore.ofDescriptor_raw env bs hpre,
      ImageBackingStore.mkRaw_wellformed env hp1 hc hp2 hbs]
  rw [if_neg (Nat.not_le.mpr he)]
  have heU : e < U32 := lt_trans he (u32_lt _)
  have hsz : u32 (u32sub e b + 1) = e - b + 1 := by
    rw [u32sub_eq (by rw [u32_of_lt heU, u32_of_lt (lt_of_le_of_lt hbe heU)]; exact hbe),
        u32_of_lt heU, u32_of_lt (lt_of_le_of_lt hbe heU)]
    have : u32 env.sectorCount < U32 := u32_lt _
    exact u32_of_lt (by omega)
  refine ⟨rfl, ?_, rfl⟩
  simp [ImageBackingStore.size, hsz]

namespace ImageBackingStore

lemma mkFile_promoted {F : Type} (env : Env F) {filename : List Char} {bs b0 e0 : Nat}
    (hcr : env.fsContiguousRange (env.fsOpen filename (env.attribReadOnly filename)) =
      some (b0, e0))
    (hcond : u32 (u32 b0 +
        u32 (env.fsSize (env.fsOpen filename (env.attribReadOnly filename)) / SD_SECTOR_SIZE))
      ≤ u32 e0)
    (hbs : bs % SD_SECTOR_SIZE = 0) :
    mkFile env filename bs =
      { m_israw := true, m_isrom := false,
        m_isreadonly_attr := env.attribReadOnly filename,
        m_blockdev := true, m_bgnsector := u32 b0,
        m_endsector := u32sub (u32 b0 +
          (if u32 e0 ≠ u32 (u32 b0 +
              u32 (env.fsSize (env.fsOpen filename (env.attribReadOnly filename)) / SD_SECTOR_SIZE))
              ∧ env.useFATAllocSize then
            u32 (u32sub (u32 e0) (u32 b0) + 1)
          else
            u32 (env.fsSize (env.fsOpen filename (env.attribReadOnly filename)) / SD_SECTOR_SIZE))) 1,
        m_cursector := 0, m_romhdr_imagesize := 0,
        m_fsfile := env.fsFlush (env.fsOpen filename (env.attribReadOnly filename)) } := by
  simp only [mkFile, hcr, mkDefault]
  rw [if_pos ⟨hcond, hbs⟩]

lemma mkFile_not_promoted {F : Type} (env : Env F) {filename : List Char} {bs b0 e0 : Nat}
    (hcr : env.fsContiguousRange (env.fsOpen filename (env.attribReadOnly filename)) =
      some (b0, e0))
    (hcond : ¬(u32 (u32 b0 +
        u32 (env.fsSize (env.fsOpen filename (env.attribReadOnly filename)) / SD_SECTOR_SIZE))
      ≤ u32 e0 ∧ bs % SD_SECTOR_SIZE = 0)) :
    mkFile env filename bs =
      { mkDefault env with
        m_isreadonly_attr := env.attribReadOnly filename,
        m_fsfile := env.fsOpen filename (env.attribReadOnly filename) } := by
  simp only [mkFile, hcr, mkDefault]
  rw [if_neg hcond]

lemma mkFile_no_range {F : Type} (env : Env F) {filename : List Char} (bs : Nat)
    (hcr : env.fsContiguousRange (env.fsOpen filename (env.attribReadOnly filename)) = none) :
    mkFile env filename bs =
      { mkDefault env with
        m_isreadonly_attr := env.attribReadOnly filename,
        m_fsfile := env.fsOpen filename (env.attribReadOnly filename) } := by
  simp only [mkFile, hcr, mkDefault]

end ImageBackingStore

/-- The `RAW:3:7` descriptor used by the C3 witness. -/
def rawDemo : List Char := ['R', 'A', 'W', ':', '3', ':', '7']

theorem C3_witness :
    (ImageBackingStore.ofDescriptor demoEnv rawDemo 512).isOpen demoEnv = true ∧
    (ImageBackingStore.ofDescriptor demoEnv rawDemo 512).size demoEnv = (7 - 3 + 1) * SD_SECTOR_SIZE ∧
    (ImageBackingStore.ofDescriptor demoEnv rawDemo 512).contiguousRange demoEnv = some (3, 7) :=
  C3_raw_descriptor_construction demoEnv rawDemo 512 3 7 [':', '7'] (by decide) (by decide)
    (by decide) (by decide) (by decide) (by decide) (by decide)

/-- The `RAW:200:300` descriptor used by the C4 counterexample. -/
def rawC4 : List Char := ['R', 'A', 'W', ':', '2', '0', '0', ':', '3', '0', '0']

/-- C4 counterexample: the descriptor `RAW:200:300` is syntactically valid,
and both its begin sector (200) and end sector (300) exceed the device
sector count (100) — exactly the situation in which the claim asserts the
invariant still holds. The end sector is clamped to 99, the begin sector is
left at 200, and the store is open and in Raw mode with
`beginSector = 200 > 99 = endSector`, refuting the claimed invariant. -/
theorem C4_counterexample :
    (ImageBackingStore.ofDescriptor demoEnv rawC4 512).m_israw = true ∧
    (ImageBackingStore.ofDescriptor demoEnv rawC4 512).isOpen demoEnv = true ∧
    (ImageBackingStore.ofDescriptor demoEnv rawC4 512).m_bgnsector = 200 ∧
    (ImageBackingStore.ofDescriptor demoEnv rawC4 512).m_endsector =
      u32 demoEnv.sectorCount - 1 ∧
    ¬((ImageBackingStore.ofDescriptor demoEnv rawC4 512).m_bgnsector ≤
      (ImageBackingStore.ofDescriptor demoEnv rawC4 512).m_endsector) := by
  decide

/-- C4 amended: `beginSector <= endSector` holds for an open Raw-mode store
provided the inputs are not degenerate: for a `RAW:b:e` descriptor this
needs `b <= e` and `b < deviceSectorCount` (and then holds both with and
without the end-sector clamp), and for a store promoted from a filesystem
file it needs the file to span at least one sector (with the usual 32-bit
non-overflow side conditions). -/
theorem C4_begin_le_end_amended {F : Type} (env : Env F) (filename : List Char) (bs : Nat) :
    (∀ b e r1, matchCI rawTag filename = true →
      strtoul (List.drop 4 filename) = (b, r1) → r1.head? = some ':' →
      strtoul r1.tail = (e, []) → bs % SD_SECTOR_SIZE = 0 →
      b ≤ e → b < u32 env.sectorCount →
      (ImageBackingStore.ofDescriptor env filename bs).m_bgnsector ≤
        (ImageBackingStore.ofDescriptor env filename bs).m_endsector)
    ∧ (∀ b0 e0, matchCI rawTag filename = false → matchCI romTag filename = false →
      env.fsContiguousRange (env.fsOpen filename (env.attribReadOnly filename)) =
        some (b0, e0) →
      bs % SD_SECTOR_SIZE = 0 →
      1 ≤ env.fsSize (env.fsOpen filename (env.attribReadOnly filename)) / SD_SECTOR_SIZE →
      b0 + env.fsSize (env.fsOpen filename (env.attribReadOnly filename)) / SD_SECTOR_SIZE ≤ e0 →
      e0 + 1 < U32 →
      (ImageBackingStore.ofDescriptor env filename bs).m_bgnsector ≤
        (ImageBackingStore.ofDescriptor env filename bs).m_endsector) := by
  constructor
  · intro b e r1 hpre hp1 hc hp2 hbs hbe hb
    rw [ImageBackingStore.ofDescriptor_raw env bs hpre,
        ImageBackingStore.mkRaw_wellformed env hp1 hc hp2 hbs]
    have hU : u32 env.sectorCount < U32 := u32_lt _
    simp only
    split
    · simp only [u32sub, u32, U32] at *
      omega
    · exact hbe
  · intro b0 e0 h1 h2 hcr hbs hsc1 hspan he0
    rw [ImageBackingStore.ofDescriptor_file env bs h1 h2]
    have hscU : u32 (env.fsSize (env.fsOpen filename (env.attribReadOnly filename)) / SD_SECTOR_SIZE)
        = env.fsSize (env.fsOpen filename (env.attribReadOnly filename)) / SD_SECTOR_SIZE := by
      apply u32_of_lt
      simp only [U32] at *
      omega
    have hb0 : b0 < U32 := by simp only [U32] at *; omega
    have he0' : e0 < U32 := by simp only [U32] at *; omega
    have hcond : u32 (u32 b0 +
        u32 (env.fsSize (env.fsOpen filename (env.attribReadOnly filename)) / SD_SECTOR_SIZE))
        ≤ u32 e0 := by
      rw [hscU, u32_of_lt hb0, u32_of_lt he0']
      rw [u32_of_lt (by simp only [U32] at *; omega)]
      exact hspan
    rw [ImageBackingStore.mkFile_promoted env hcr hcond hbs]
    simp only
    rw [hscU, u32_of_lt hb0, u32_of_lt he0']
    split
    · simp only [u32sub, u32, U32] at *
      omega
    · simp only [u32sub, u32, U32] at *
      omega

theorem C4_witness :
    ((ImageBackingStore.ofDescriptor demoEnv ['R', 'A', 'W', ':', '5', ':', '5', '0', '0'] 512).m_bgnsector ≤
      (ImageBackingStore.ofDescriptor demoEnv ['R', 'A', 'W', ':', '5', ':', '5', '0', '0'] 512).m_endsector)
    ∧ ((ImageBackingStore.ofDescriptor demoEnv ['f', 'i', 'l', 'e'] 512).m_bgnsector ≤
      (ImageBackingStore.ofDescriptor demoEnv ['f', 'i', 'l', 'e'] 512).m_endsector) :=
  ⟨(C4_begin_le_end_amended demoEnv ['R', 'A', 'W', ':', '5', ':', '5', '0', '0'] 512).1
      5 500 [':', '5', '0', '0'] (by decide) (by decide) (by decide) (by decide) (by decide)
      (by decide) (by decide),
   (C4_begin_le_end_amended demoEnv ['f', 'i', 'l', 'e'] 512).2
      10 20 (by decide) (by decide) (by decide) (by decide) (by decide) (by decide) (by decide)⟩

/-- C5: for a well-formed `RAW:b:e` descriptor with supported block size and
`e >= deviceSectorCount`, the end sector is clamped to
`deviceSectorCount - 1` and `size()` returns
`(deviceSectorCount - 1 - b + 1) * SECTOR_SIZE`. -/
theorem C5_clamp_size {F : Type} (env : Env F) (filename : List Char)
    (bs b e : Nat) (r1 : List Char)
    (hpre : matchCI rawTag filename = true)
    (hp1 : strtoul (List.drop 4 filename) = (b, r1))
    (hc : r1.head? = some ':')
    (hp2 : strtoul r1.tail = (e, []))
    (hbs : bs % SD_SECTOR_SIZE = 0)
    (hb : b < u32 env.sectorCount)
    (he : u32 env.sectorCount ≤ e) :
    (ImageBackingStore.ofDescriptor env filename bs).m_endsector = u32 env.sectorCount - 1 ∧
    (ImageBackingStore.ofDescriptor env filename bs).size env =
      (u32 env.sectorCount - 1 - b + 1) * SD_SECTOR_SIZE := by
  rw [ImageBackingStore.ofDescriptor_raw env bs hpre,
      ImageBackingStore.mkRaw_wellformed env hp1 hc hp2 hbs]
  have hU : u32 env.sectorCount < U32 := u32_lt _
  rw [if_pos he]
  constructor
  · show u32sub env.sectorCount 1 = u32 env.sectorCount - 1
    simp only [u32sub, u32, U32] at *
    omega
  · have harith : u32 (u32sub (u32sub env.sectorCount 1) b + 1) =
        u32 env.sectorCount - 1 - b + 1 := by
      simp only [u32sub, u32, U32] at *
      omega
    simp [ImageBackingStore.size, harith]

theorem C5_witness :
    (ImageBackingStore.ofDescriptor demoEnv ['R', 'A', 'W', ':', '5', ':', '5', '0', '0'] 512).m_endsector =
      u32 demoEnv.sectorCount - 1 ∧
    (ImageBackingStore.ofDescriptor demoEnv ['R', 'A', 'W', ':', '5', ':', '5', '0', '0'] 512).size demoEnv =
      (u32 demoEnv.sectorCount - 1 - 5 + 1) * SD_SECTOR_SIZE :=
  C5_clamp_size demoEnv ['R', 'A', 'W', ':', '5', ':', '5', '0', '0'] 512 5 500 [':', '5', '0', '0']
    (by decide) (by decide) (by decide) (by decide) (by decide) (by decide) (by decide)

/-- C7: a descriptor with the (case-insensitive) `RAW:` tag whose remainder
fails the syntax check of the constructor — the character after the first
`strtoul` field is not `:`, or the second field's `strtoul` leaves trailing
characters — leaves the store with no mode set (`m_israw` and `m_isrom`
both false) and `isOpen()` false (given the FsFile contract that a
default-constructed handle is not open). -/
theorem C7_malformed_raw_unopened {F : Type} (env : Env F) (filename : List Char)
    (bs b : Nat) (r1 : List Char)
    (hpre : matchCI rawTag filename = true)
    (hp1 : strtoul (List.drop 4 filename) = (b, r1))
    (hbad : ¬(r1.head? = some ':' ∧ (strtoul r1.tail).2 = []))
    (hdef : env.fsIsOpen env.fsDefault = false) :
    (ImageBackingStore.ofDescriptor env filename bs).m_israw = false ∧
    (ImageBackingStore.ofDescriptor env filename bs).m_isrom = false ∧
    (ImageBackingStore.ofDescriptor env filename bs).isOpen env = false := by
  rw [ImageBackingStore.ofDescriptor_raw env bs hpre,
      ImageBackingStore.mkRaw_malformed env bs hp1 hbad]
  refine ⟨rfl, rfl, ?_⟩
  simp [ImageBackingStore.isOpen, ImageBackingStore.mkDefault, hdef]

theorem C7_witness :
    ((ImageBackingStore.ofDescriptor demoEnv ['R', 'A', 'W', ':', '1', '0'] 512).m_israw = false ∧
     (ImageBackingStore.ofDescriptor demoEnv ['R', 'A', 'W', ':', '1', '0'] 512).m_isrom = false ∧
     (ImageBackingStore.ofDescriptor demoEnv ['R', 'A', 'W', ':', '1', '0'] 512).isOpen demoEnv = false)
    ∧ ((ImageBackingStore.ofDescriptor demoEnv ['R', 'A', 'W', ':', 'a', 'b', 'c', ':', '2', '0'] 512).m_israw = false ∧
     (ImageBackingStore.ofDescriptor demoEnv ['R', 'A', 'W', ':', 'a', 'b', 'c', ':', '2', '0'] 512).m_isrom = false ∧
     (ImageBackingStore.ofDescriptor demoEnv ['R', 'A', 'W', ':', 'a', 'b', 'c', ':', '2', '0'] 512).isOpen demoEnv = false) :=
  ⟨C7_malformed_raw_unopened demoEnv ['R', 'A', 'W', ':', '1', '0'] 512 10 []
      (by decide) (by decide) (by decide) (by decide),
   C7_malformed_raw_unopened demoEnv ['R', 'A', 'W', ':', 'a', 'b', 'c', ':', '2', '0'] 512 0
      ['a', 'b', 'c', ':', '2', '0'] (by decide) (by decide) (by decide) (by decide)⟩

/-- C10: a store whose construction set no mode is not open but reports
itself writable, because `isWritable()` only consults the ROM flag and the
read-only attribute, which are both false in the unopened default state.
This holds both for a default-constructed store and for a store built from
a malformed `RAW:` descriptor. -/
theorem C10_unopened_writable {F : Type} (env : Env F)
    (hdef : env.fsIsOpen env.fsDefault = false) :
    ((ImageBackingStore.mkDefault env).isWritable = true ∧
     (ImageBackingStore.mkDefault env).isOpen env = false)
    ∧ (∀ (filename : List Char) (bs b : Nat) (r1 : List Char),
      matchCI rawTag filename = true →
      strtoul (List.drop 4 filename) = (b, r1) →
      ¬(r1.head? = some ':' ∧ (strtoul r1.tail).2 = []) →
      (ImageBackingStore.ofDescriptor env filename bs).isWritable = true ∧
      (ImageBackingStore.ofDescriptor env filename bs).isOpen env = false) := by
  constructor
  · exact ⟨rfl, by simp [ImageBackingStore.isOpen, ImageBackingStore.mkDefault, hdef]⟩
  · intro filename bs b r1 hpre hp1 hbad
    rw [ImageBackingStore.ofDescriptor_raw env bs hpre,
        ImageBackingStore.mkRaw_malformed env bs hp1 hbad]
    refine ⟨rfl, ?_⟩
    simp [ImageBackingStore.isOpen, ImageBackingStore.mkDefault, hdef]

theorem C10_witness :
    ((ImageBackingStore.mkDefault demoEnv).isWritable = true ∧
     (ImageBackingStore.mkDefault demoEnv).isOpen demoEnv = false)
    ∧ ((ImageBackingStore.ofDescriptor demoEnv ['R', 'A', 'W', ':', '1', '0'] 512).isWritable = true ∧
     (ImageBackingStore.ofDescriptor demoEnv ['R', 'A', 'W', ':', '1', '0'] 512).isOpen demoEnv = false) :=
  ⟨(C10_unopened_writable demoEnv (by decide)).1,
   (C10_unopened_writable demoEnv (by decide)).2 ['R', 'A', 'W', ':', '1', '0'] 512 10 []
      (by decide) (by decide) (by decide)⟩

/-! ## Frame lemmas for the operations: `m_isrom` is never changed, and a
false `m_israw` is never set back to true (the one-way demotion). -/

namespace ImageBackingStore

lemma seek_frame {F : Type} (env : Env F) (t : ImageBackingStore F) (pos : Nat) :
    ∀ b s2, seek env t pos = some (b, s2) →
      s2.m_isrom = t.m_isrom ∧ (t.m_israw = false → s2.m_israw = false) := by
  intro b s2 h
  simp only [seek] at h
  split at h <;> split at h <;> simp_all <;> try (split at h <;> simp_all)
  all_goals first
  | (obtain ⟨h1, h2, h3⟩ := h
     subst h3
     simp_all)
  | (obtain ⟨h1, h2⟩ := h
     subst h2
     simp_all)

lemma read_frame {F : Type} (env : Env F) (t : ImageBackingStore F) (count : Nat) :
    ∀ i s2, read env t count = some (i, s2) →
      s2.m_isrom = t.m_isrom ∧ (t.m_israw = false → s2.m_israw = false) := by
  intro i s2 h
  simp only [read] at h
  split at h <;> split at h <;> simp_all <;> try (split at h <;> simp_all) <;>
    try (split at h <;> simp_all)
  all_goals first
  | (obtain ⟨h1, h2, h3⟩ := h
     subst h3
     simp_all)
  | (obtain ⟨h1, h2⟩ := h
     subst h2
     simp_all)

lemma write_frame {F : Type} (env : Env F) (t : ImageBackingStore F) (count : Nat) :
    (write env t count).2.m_isrom = t.m_isrom ∧
    (t.m_israw = false → (write env t count).2.m_israw = false) := by
  obtain ⟨raw, rom, ro, bd, bg, en, cu, sz, f⟩ := t
  cases raw <;> cases rom <;> cases ro <;> cases bd <;>
    simp [write] <;> split <;> simp_all <;> try (split <;> simp_all)

lemma flush_frame {F : Type} (env : Env F) (t : ImageBackingStore F) :
    (flush env t).m_isrom = t.m_isrom ∧ (flush env t).m_israw = t.m_israw := by
  simp only [flush]
  split <;> simp

lemma close_frame {F : Type} (env : Env F) (t : ImageBackingStore F) :
    (close env t).2.m_isrom = t.m_isrom ∧ (close env t).2.m_israw = t.m_israw := by
  simp only [close]
  split <;> simp_all
  split <;> simp_all

end ImageBackingStore

/-- C1: on a store in Raw mode, any `seek`/`read`/`write` whose byte
position or count is not a multiple of `SECTOR_SIZE` clears the Raw flag
and is served by the filesystem-file path of the same call; moreover no
operation ever sets the Raw flag back to true once it is false (the
demotion is permanent), and no operation ever changes the Rom flag (Rom
mode is never entered or left at runtime). -/
theorem C1_raw_demotion_permanent {F : Type} (env : Env F) (s : ImageBackingStore F)
    (hraw : s.m_israw = true) (hrom : s.m_isrom = false) :
    (∀ pos, ¬ SD_SECTOR_SIZE ∣ pos →
      ImageBackingStore.seek env s pos =
        some ((env.fsSeek s.m_fsfile pos).1,
          { s with m_israw := false, m_fsfile := (env.fsSeek s.m_fsfile pos).2 }))
    ∧ (∀ count, ¬ SD_SECTOR_SIZE ∣ count →
      ImageBackingStore.read env s count =
        some ((env.fsRead s.m_fsfile count).1,
          { s with m_israw := false, m_fsfile := (env.fsRead s.m_fsfile count).2 }))
    ∧ (∀ count, ¬ SD_SECTOR_SIZE ∣ count → s.m_isreadonly_attr = false →
      ImageBackingStore.write env s count =
        ((env.fsWrite s.m_fsfile count).1,
          { s with m_israw := false, m_fsfile := (env.fsWrite s.m_fsfile count).2 }))
    ∧ (∀ count, ¬ SD_SECTOR_SIZE ∣ count → s.m_isreadonly_attr = true →
      ImageBackingStore.write env s count = (0, { s with m_israw := false }))
    ∧ (∀ (t : ImageBackingStore F), t.m_israw = false →
        (∀ pos b s2, ImageBackingStore.seek env t pos = some (b, s2) → s2.m_israw = false)
      ∧ (∀ count i s2, ImageBackingStore.read env t count = some (i, s2) → s2.m_israw = false)
      ∧ (∀ count, (ImageBackingStore.write env t count).2.m_israw = false)
      ∧ (ImageBackingStore.flush env t).m_israw = false
      ∧ (ImageBackingStore.close env t).2.m_israw = false)
    ∧ (∀ (t : ImageBackingStore F),
        (∀ pos b s2, ImageBackingStore.seek env t pos = some (b, s2) → s2.m_isrom = t.m_isrom)
      ∧ (∀ count i s2, ImageBackingStore.read env t count = some (i, s2) → s2.m_isrom = t.m_isrom)
      ∧ (∀ count, (ImageBackingStore.write env t count).2.m_isrom = t.m_isrom)
      ∧ (ImageBackingStore.flush env t).m_isrom = t.m_isrom
      ∧ (ImageBackingStore.close env t).2.m_isrom = t.m_isrom) := by
  refine ⟨?_, ?_, ?_, ?_, ?_, ?_⟩
  · intro pos h512
    have hne := unaligned_ne h512
    simp [ImageBackingStore.seek, hraw, hrom, hne]
  · intro count h512
    have hne := unaligned_ne h512
    simp [ImageBackingStore.read, hraw, hrom, hne]
  · intro count h512 hro
    have hne := unaligned_ne h512
    simp [ImageBackingStore.write, hraw, hrom, hro, hne]
  · intro count h512 hro
    have hne := unaligned_ne h512
    simp [ImageBackingStore.write, hraw, hrom, hro, hne]
  · intro t ht
    exact ⟨fun pos b s2 h => (ImageBackingStore.seek_frame env t pos b s2 h).2 ht,
      fun count i s2 h => (ImageBackingStore.read_frame env t count i s2 h).2 ht,
      fun count => (ImageBackingStore.write_frame env t count).2 ht,
      by rw [(ImageBackingStore.flush_frame env t).2]; exact ht,
      by rw [(ImageBackingStore.close_frame env t).2]; exact ht⟩
  · intro t
    exact ⟨fun pos b s2 h => (ImageBackingStore.seek_frame env t pos b s2 h).1,
      fun count i s2 h => (ImageBackingStore.read_frame env t count i s2 h).1,
      fun count => (ImageBackingStore.write_frame env t count).1,
      (ImageBackingStore.flush_frame env t).1,
      (ImageBackingStore.close_frame env t).1⟩

theorem C1_witness :
    ImageBackingStore.seek demoEnv (ImageBackingStore.ofDescriptor demoEnv rawDemo 512) 100 =
      some ((demoEnv.fsSeek (ImageBackingStore.ofDescriptor demoEnv rawDemo 512).m_fsfile 100).1,
        { ImageBackingStore.ofDescriptor demoEnv rawDemo 512 with
          m_israw := false,
          m_fsfile := (demoEnv.fsSeek (ImageBackingStore.ofDescriptor demoEnv rawDemo 512).m_fsfile 100).2 }) :=
  (C1_raw_demotion_permanent demoEnv (ImageBackingStore.ofDescriptor demoEnv rawDemo 512)
      (by decide) (by decide)).1 100 (by decide)

/-- C6: `write` returns zero — never a negative sentinel — in every refusal
case: a Rom-mode store, a File-mode store with the read-only attribute, and
a Raw-mode store whose block-device write fails. In the Rom and read-only
cases the result is `(0, s)` for *every* environment, so the underlying
write is not consulted and no store state (`m_romhdr_imagesize`,
`m_cursector`, the file handle) changes. The raw read failure, in contrast,
returns the negative sentinel `-1`. -/
theorem C6_write_refusal_zero {F : Type} (env : Env F) (s : ImageBackingStore F) (count : Nat) :
    (s.m_isrom = true → s.m_israw = false →
      ImageBackingStore.write env s count = (0, s))
    ∧ (s.m_israw = false → s.m_isrom = false → s.m_isreadonly_attr = true →
      ImageBackingStore.write env s count = (0, s))
    ∧ (s.m_israw = true → s.m_blockdev = true → count < U32 → SD_SECTOR_SIZE ∣ count →
      env.writeSectors s.m_cursector (count / SD_SECTOR_SIZE) = false →
      ImageBackingStore.write env s count = (0, s))
    ∧ (s.m_israw = true → s.m_blockdev = true → count < U32 → SD_SECTOR_SIZE ∣ count →
      env.readSectors s.m_cursector (count / SD_SECTOR_SIZE) = false →
      ImageBackingStore.read env s count = some (-1, s)) := by
  have hdivU : count / SD_SECTOR_SIZE ≤ count := Nat.div_le_self _ _
  refine ⟨?_, ?_, ?_, ?_⟩
  · intro h1 h2
    simp [ImageBackingStore.write, h1, h2]
  · intro h1 h2 h3
    simp [ImageBackingStore.write, h1, h2, h3]
  · intro h1 h2 h3 h4 h5
    have hal := aligned_eq h3 h4
    have hdm : count / SD_SECTOR_SIZE * SD_SECTOR_SIZE = count := Nat.div_mul_cancel h4
    have hsm : u32 (count / SD_SECTOR_SIZE) = count / SD_SECTOR_SIZE :=
      u32_of_lt (lt_of_le_of_lt hdivU h3)
    simp [ImageBackingStore.write, h1, h2, hal, hdm, hsm, h5]
  · intro h1 h2 h3 h4 h5
    have hal := aligned_eq h3 h4
    have hdm : count / SD_SECTOR_SIZE * SD_SECTOR_SIZE = count := Nat.div_mul_cancel h4
    have hsm : u32 (count / SD_SECTOR_SIZE) = count / SD_SECTOR_SIZE :=
      u32_of_lt (lt_of_le_of_lt hdivU h3)
    simp [ImageBackingStore.read, h1, h2, hal, hdm, hsm, h5]

/-- A variant of `demoEnv` whose block-device writes and reads fail. -/
def envWF : Env Nat :=
  { demoEnv with writeSectors := fun _ _ => false, readSectors := fun _ _ => false }

/-- A variant of `demoEnv` whose path attribute is read-only and whose files
report no contiguous range (so construction stays in File mode). -/
def envRO : Env Nat :=
  { demoEnv with attribReadOnly := fun _ => true, fsContiguousRange := fun _ => none }

theorem C6_witness :
    (ImageBackingStore.write demoEnv (ImageBackingStore.ofDescriptor demoEnv romTag 512) 512 =
      (0, ImageBackingStore.ofDescriptor demoEnv romTag 512))
    ∧ (ImageBackingStore.write envRO (ImageBackingStore.ofDescriptor envRO ['x'] 512) 512 =
      (0, ImageBackingStore.ofDescriptor envRO ['x'] 512))
    ∧ (ImageBackingStore.write envWF (ImageBackingStore.ofDescriptor envWF rawDemo 512) 512 =
      (0, ImageBackingStore.ofDescriptor envWF rawDemo 512))
    ∧ (ImageBackingStore.read envWF (ImageBackingStore.ofDescriptor envWF rawDemo 512) 512 =
      some (-1, ImageBackingStore.ofDescriptor envWF rawDemo 512)) :=
  ⟨(C6_write_refusal_zero demoEnv (ImageBackingStore.ofDescriptor demoEnv romTag 512) 512).1
      (by decide) (by decide),
   (C6_write_refusal_zero envRO (ImageBackingStore.ofDescriptor envRO ['x'] 512) 512).2.1
      (by decide) (by decide) (by decide),
   (C6_write_refusal_zero envWF (ImageBackingStore.ofDescriptor envWF rawDemo 512) 512).2.2.1
      (by decide) (by decide) (by decide) (by decide) (by decide),
   (C6_write_refusal_zero envWF (ImageBackingStore.ofDescriptor envWF rawDemo 512) 512).2.2.2
      (by decide) (by decide) (by decide) (by decide) (by decide)⟩

/-- C8 counterexample: a File-mode store whose read-only attribute is set.
The claim says `flush()` in File mode always delegates to the filesystem
collaborator regardless of the attribute, but the code skips the delegate
when `m_isreadonly_attr` is set: the handle is left untouched and differs
from the delegated result. -/
theorem C8_counterexample :
    (ImageBackingStore.ofDescriptor envRO ['x'] 512).m_israw = false ∧
    (ImageBackingStore.ofDescriptor envRO ['x'] 512).m_isrom = false ∧
    (ImageBackingStore.ofDescriptor envRO ['x'] 512).m_isreadonly_attr = true ∧
    (ImageBackingStore.flush envRO (ImageBackingStore.ofDescriptor envRO ['x'] 512)).m_fsfile ≠
      envRO.fsFlush (ImageBackingStore.ofDescriptor envRO ['x'] 512).m_fsfile := by
  decide

/-- C8 amended: `flush()` is a no-op in Raw and Rom modes *and* in File mode
when the read-only attribute is set; only a writable File-mode store
delegates to the filesystem collaborator's flush. -/
theorem C8_flush_amended {F : Type} (env : Env F) (s : ImageBackingStore F) :
    ((s.m_israw = true ∨ s.m_isrom = true ∨ s.m_isreadonly_attr = true) →
      ImageBackingStore.flush env s = s)
    ∧ (s.m_israw = false → s.m_isrom = false → s.m_isreadonly_attr = false →
      ImageBackingStore.flush env s = { s with m_fsfile := env.fsFlush s.m_fsfile }) := by
  constructor
  · intro h
    rcases h with h | h | h <;> simp [ImageBackingStore.flush, h]
  · intro h1 h2 h3
    simp [ImageBackingStore.flush, h1, h2, h3]

/-- A variant of `demoEnv` whose files report no contiguous range, so a
path descriptor stays in File mode. -/
def envNC : Env Nat := { demoEnv with fsContiguousRange := fun _ => none }

theorem C8_witness :
    (ImageBackingStore.flush demoEnv (ImageBackingStore.ofDescriptor demoEnv romTag 512) =
      ImageBackingStore.ofDescriptor demoEnv romTag 512)
    ∧ (ImageBackingStore.flush envNC (ImageBackingStore.ofDescriptor envNC ['x'] 512) =
      { ImageBackingStore.ofDescriptor envNC ['x'] 512 with
        m_fsfile := envNC.fsFlush (ImageBackingStore.ofDescriptor envNC ['x'] 512).m_fsfile }) :=
  ⟨(C8_flush_amended demoEnv (ImageBackingStore.ofDescriptor demoEnv romTag 512)).1
      (Or.inr (Or.inl (by decide))),
   (C8_flush_amended envNC (ImageBackingStore.ofDescriptor envNC ['x'] 512)).2
      (by decide) (by decide) (by decide)⟩

/-- C9: `close()` followed by `isOpen()` is false in every mode (File mode
under the collaborator contract that a closed handle reports not-open); a
second `close()` on an already-closed Raw or Rom store still returns
success; and a Raw-mode `close()` only clears the non-owning device
reference, leaving every other field (including the retained file handle)
untouched and returning success. -/
theorem C9_close_isOpen {F : Type} (env : Env F)
    (hclose : ∀ f, env.fsIsOpen (env.fsClose f).2 = false) :
    (∀ s : ImageBackingStore F,
      (ImageBackingStore.close env s).2.isOpen env = false)
    ∧ (∀ s : ImageBackingStore F, s.m_israw = true →
      ImageBackingStore.close env s = (true, { s with m_blockdev := false })
      ∧ (ImageBackingStore.close env (ImageBackingStore.close env s).2).1 = true)
    ∧ (∀ s : ImageBackingStore F, s.m_israw = false → s.m_isrom = true →
      (ImageBackingStore.close env s).1 = true
      ∧ (ImageBackingStore.close env (ImageBackingStore.close env s).2).1 = true) := by
  refine ⟨?_, ?_, ?_⟩
  · intro s
    obtain ⟨raw, rom, ro, bd, bg, en, cu, sz, f⟩ := s
    cases raw <;> cases rom <;> simp [ImageBackingStore.close, ImageBackingStore.isOpen, hclose]
  · intro s hraw
    exact ⟨by simp [ImageBackingStore.close, hraw], by simp [ImageBackingStore.close, hraw]⟩
  · intro s hraw hrom
    exact ⟨by simp [ImageBackingStore.close, hraw, hrom], by simp [ImageBackingStore.close, hraw, hrom]⟩

theorem C9_witness :
    ((ImageBackingStore.close demoEnv (ImageBackingStore.ofDescriptor demoEnv rawDemo 512)).2.isOpen demoEnv = false)
    ∧ (ImageBackingStore.close demoEnv (ImageBackingStore.ofDescriptor demoEnv rawDemo 512) =
        (true, { ImageBackingStore.ofDescriptor demoEnv rawDemo 512 with m_blockdev := false }))
    ∧ ((ImageBackingStore.close demoEnv
        (ImageBackingStore.close demoEnv (ImageBackingStore.ofDescriptor demoEnv romTag 512)).2).1 = true) :=
  ⟨(C9_close_isOpen demoEnv (fun _ => rfl)).1 (ImageBackingStore.ofDescriptor demoEnv rawDemo 512),
   ((C9_close_isOpen demoEnv (fun _ => rfl)).2.1 (ImageBackingStore.ofDescriptor demoEnv rawDemo 512)
      (by decide)).1,
   ((C9_close_isOpen demoEnv (fun _ => rfl)).2.2 (ImageBackingStore.ofDescriptor demoEnv romTag 512)
      (by decide) (by decide)).2⟩

/-- A variant of `demoEnv` describing a file of exactly one sector
(512 bytes) whose contiguous run is exactly one sector, `(0, 0)`. -/
def envC2 : Env Nat :=
  { demoEnv with fsSize := fun _ => 512, fsContiguousRange := fun _ => some (0, 0) }

/-- C2 counterexample: a file of 512 bytes (sector count 1) occupying the
contiguous run `(0, 0)` — span `0 - 0 + 1 = 1`, which is at least the
file's sector count — with block size 512 (a multiple of `SECTOR_SIZE`).
The claim says construction promotes to Raw; the code requires
`end >= begin + sectorcount` (span strictly greater than the sector
count) and leaves the store in File mode. -/
theorem C2_counterexample :
    envC2.fsContiguousRange (envC2.fsOpen ['x'] (envC2.attribReadOnly ['x'])) = some (0, 0) ∧
    0 - 0 + 1 ≥ envC2.fsSize (envC2.fsOpen ['x'] (envC2.attribReadOnly ['x'])) / SD_SECTOR_SIZE ∧
    512 % SD_SECTOR_SIZE = 0 ∧
    (ImageBackingStore.ofDescriptor envC2 ['x'] 512).m_israw = false := by
  decide

/-- C2 amended: for a filesystem-path descriptor, construction promotes the
store to Raw mode *iff* the contiguous-range query succeeds with some
`(begin, end)`, `end >= begin + sectorcount` in `uint32` arithmetic (that
is, the contiguous span strictly exceeds the file's own sector count), and
the declared block size is a multiple of `SECTOR_SIZE`; on promotion
`m_bgnsector` is the file's reported starting sector, the device is bound,
and the filesystem handle is retained (flushed, not closed) as a fallback. -/
theorem C2_promotion_iff_amended {F : Type} (env : Env F) (filename : List Char) (bs : Nat)
    (h1 : matchCI rawTag filename = false) (h2 : matchCI romTag filename = false) :
    ((ImageBackingStore.ofDescriptor env filename bs).m_israw = true ↔
      (∃ be : Nat × Nat,
        env.fsContiguousRange (env.fsOpen filename (env.attribReadOnly filename)) = some be ∧
        u32 (u32 be.1 +
          u32 (env.fsSize (env.fsOpen filename (env.attribReadOnly filename)) / SD_SECTOR_SIZE))
          ≤ u32 be.2 ∧
        bs % SD_SECTOR_SIZE = 0))
    ∧ (∀ b0 e0,
      env.fsContiguousRange (env.fsOpen filename (env.attribReadOnly filename)) = some (b0, e0) →
      u32 (u32 b0 +
        u32 (env.fsSize (env.fsOpen filename (env.attribReadOnly filename)) / SD_SECTOR_SIZE))
        ≤ u32 e0 →
      bs % SD_SECTOR_SIZE = 0 →
      (ImageBackingStore.ofDescriptor env filename bs).m_bgnsector = u32 b0 ∧
      (ImageBackingStore.ofDescriptor env filename bs).m_blockdev = true ∧
      (ImageBackingStore.ofDescriptor env filename bs).m_fsfile =
        env.fsFlush (env.fsOpen filename (env.attribReadOnly filename))) := by
  rw [ImageBackingStore.ofDescriptor_file env bs h1 h2]
  constructor
  · constructor
    · intro hr
      cases hcr : env.fsContiguousRange (env.fsOpen filename (env.attribReadOnly filename)) with
      | none =>
        rw [ImageBackingStore.mkFile_no_range env bs hcr] at hr
        simp [ImageBackingStore.mkDefault] at hr
      | some be =>
        obtain ⟨b0, e0⟩ := be
        by_cases hc2 : u32 (u32 b0 +
            u32 (env.fsSize (env.fsOpen filename (env.attribReadOnly filename)) / SD_SECTOR_SIZE))
            ≤ u32 e0 ∧ bs % SD_SECTOR_SIZE = 0
        · exact ⟨(b0, e0), rfl, hc2.1, hc2.2⟩
        · rw [ImageBackingStore.mkFile_not_promoted env hcr hc2] at hr
          simp [ImageBackingStore.mkDefault] at hr
    · rintro ⟨⟨b0, e0⟩, hcr, hc1, hc2⟩
      rw [ImageBackingStore.mkFile_promoted env hcr hc1 hc2]
  · intro b0 e0 hcr hc1 hc2
    rw [ImageBackingStore.mkFile_promoted env hcr hc1 hc2]
    exact ⟨rfl, rfl, rfl⟩

theorem C2_witness :
    ((ImageBackingStore.ofDescriptor demoEnv ['x'] 512).m_israw = true) ∧
    ((ImageBackingStore.ofDescriptor demoEnv ['x'] 512).m_bgnsector = u32 10) ∧
    ((ImageBackingStore.ofDescriptor demoEnv ['x'] 512).m_fsfile =
      demoEnv.fsFlush (demoEnv.fsOpen ['x'] (demoEnv.attribReadOnly ['x']))) :=
  ⟨(C2_promotion_iff_amended demoEnv ['x'] 512 (by decide) (by decide)).1.mpr
      ⟨(10, 20), by decide, by decide, by decide⟩,
   ((C2_promotion_iff_amended demoEnv ['x'] 512 (by decide) (by decide)).2 10 20
      (by decide) (by decide) (by decide)).1,
   ((C2_promotion_iff_amended demoEnv ['x'] 512 (by decide) (by decide)).2 10 20
      (by decide) (by decide) (by decide)).2.2⟩
